import Mathlib

/-!
Verification development for the Crunchbase MCP server (TypeScript sources
`src/crunchbase-api.ts`, `src/types.ts`, `src/index.ts`).

The adapter (`CrunchbaseAPI`) and the router (`CrunchbaseMcpServer`) are
shallowly embedded: HTTP traffic is abstracted into an `Oracle` of endpoint
responses, and every operation additionally returns the list of HTTP calls it
issued, in order, so that properties such as "no network call is issued" are
statable.  JavaScript `Error` values are embedded as a (constructor-name,
message) pair, since that is all the runtime values carry.  JavaScript string
truthiness (`if (s)`, `s || ''`) and number truthiness (`n || 10`) are made
explicit.
-/

namespace Crunchbase

/-- A JavaScript `Error` value as the adapter produces and the router consumes
it: the constructor name (`"Error"`, `"TypeError"`, `"URIError"`, ...) and the
message string.  This is the entire observable content of the error values in
`crunchbase-api.ts`, which constructs every classified error with `new Error(msg)`. -/
structure JsErrorValue where
  name : String
  message : String
  deriving Repr, DecidableEq

/-- Outcome of one HTTP request as seen through axios: either a typed JSON
body, or a failure carrying the optional HTTP status (`error.response?.status`),
the optional upstream body message (`error.response?.data?.message`) and the
axios error message (`error.message`). -/
inductive ApiOutcome (α : Type) where
  | ok (v : α)
  | httpFail (status : Option Int) (respMessage : Option String) (message : String)
  deriving Repr, DecidableEq

/-- `CrunchbaseApiResponse<T>` from `types.ts`. -/
structure CrunchbaseApiResponse (α : Type) where
  data : α
  count : Int
  total_count : Int
  deriving Repr, DecidableEq

/-- `LocationIdentifier` from `types.ts`. -/
structure LocationIdentifier where
  uuid : String
  name : String
  location_type : String
  deriving Repr, DecidableEq

/-- `Category` from `types.ts`. -/
structure Category where
  uuid : String
  name : String
  deriving Repr, DecidableEq

/-- `Company` from `types.ts` (optional fields as `Option`). -/
structure Company where
  uuid : String
  name : String
  short_description : String
  website_url : String
  linkedin_url : Option String := none
  twitter_url : Option String := none
  facebook_url : Option String := none
  logo_url : Option String := none
  location_identifiers : Option (List LocationIdentifier) := none
  categories : Option (List Category) := none
  founded_on : Option String := none
  closed_on : Option String := none
  num_employees_min : Option Int := none
  num_employees_max : Option Int := none
  status : Option String := none
  rank : Option Int := none
  created_at : Option String := none
  updated_at : Option String := none
  deriving Repr, DecidableEq

/-- `InvestorIdentifier` from `types.ts`. -/
structure InvestorIdentifier where
  uuid : String
  name : String
  investor_type : String
  deriving Repr, DecidableEq

/-- `FundingRound` from `types.ts`. -/
structure FundingRound where
  uuid : String
  name : String
  announced_on : String
  closed_on : Option String := none
  investment_type : String
  money_raised : Option Int := none
  money_raised_currency_code : Option String := none
  target_money_raised : Option Int := none
  target_money_raised_currency_code : Option String := none
  investor_identifiers : Option (List InvestorIdentifier) := none
  lead_investor_identifiers : Option (List InvestorIdentifier) := none
  created_at : String
  updated_at : String
  deriving Repr, DecidableEq

/-- An `id + name` entity reference, as embedded in `Acquisition`. -/
structure EntityRef where
  uuid : String
  name : String
  deriving Repr, DecidableEq

/-- `Acquisition` from `types.ts`. -/
structure Acquisition where
  uuid : String
  acquirer_identifier : EntityRef
  acquiree_identifier : EntityRef
  announced_on : String
  completed_on : Option String := none
  price : Option Int := none
  price_currency_code : Option String := none
  acquisition_type : Option String := none
  acquisition_status : Option String := none
  acquisition_terms : Option String := none
  created_at : String
  updated_at : String
  deriving Repr, DecidableEq

/-- `Person` from `types.ts`. -/
structure Person where
  uuid : String
  first_name : String
  last_name : String
  name : String
  gender : Option String := none
  linkedin_url : Option String := none
  twitter_url : Option String := none
  facebook_url : Option String := none
  featured_job_organization_uuid : Option String := none
  featured_job_organization_name : Option String := none
  featured_job_title : Option String := none
  rank : Option Int := none
  created_at : String
  updated_at : String
  deriving Repr, DecidableEq

/-- `SearchCompaniesInput` from `types.ts`. -/
structure SearchCompaniesInput where
  query : Option String := none
  location : Option String := none
  category : Option String := none
  founded_after : Option String := none
  founded_before : Option String := none
  status : Option String := none
  limit : Option Int := none
  deriving Repr, DecidableEq

/-- `SearchPeopleInput` from `types.ts`. -/
structure SearchPeopleInput where
  query : Option String := none
  company : Option String := none
  title : Option String := none
  limit : Option Int := none
  deriving Repr, DecidableEq

/-- JavaScript truthiness of an optional string value: `undefined` and `""`
are falsy, every other string is truthy. -/
def strTruthy : Option String → Bool
  | some s => s ≠ ""
  | none => false

/-- `v || ''` on an optional string: yields `''` for `undefined` (and is the
identity on `''` itself). -/
def orEmpty : Option String → String
  | some s => s
  | none => ""

/-- `a || b` on an optional string against a string default: an `undefined` or
empty left operand yields the default. -/
def jsOr : Option String → String → String
  | some s, b => if s = "" then b else s
  | none, b => b

/-- `params.limit || 10`: an absent or zero limit is replaced by the default 10. -/
def orLimit : Option Int → Int
  | some n => if n = 0 then 10 else n
  | none => 10

/-- One `if (params.f) { query += \x60 AND clause\x60 }` step of the query
builders in `searchCompanies` / `searchPeople`: appends the clause exactly when
the filter is present and non-empty (JS truthiness). -/
def appendFilter (q : String) (clause : String) (v : Option String) : String :=
  match v with
  | some s => if s = "" then q else q ++ (" AND " ++ clause ++ s)
  | none => q

/-- The composite query string built by `searchCompanies` (lines 37-57 of
`crunchbase-api.ts`): free text, then location, category, founded-after,
founded-before, status clauses in that order. -/
def buildCompanyQuery (p : SearchCompaniesInput) : String :=
  let query := orEmpty p.query
  let query := appendFilter query "location:" p.location
  let query := appendFilter query "category:" p.category
  let query := appendFilter query "founded_on:>=" p.founded_after
  let query := appendFilter query "founded_on:<=" p.founded_before
  let query := appendFilter query "status:" p.status
  query

/-- The composite query string built by `searchPeople` (lines 166-174):
free text, then company, title clauses in that order. -/
def buildPeopleQuery (p : SearchPeopleInput) : String :=
  let query := orEmpty p.query
  let query := appendFilter query "featured_job_organization_name:" p.company
  let query := appendFilter query "featured_job_title:" p.title
  query

/-- The term a present, non-empty filter contributes to the spec-side
conjunction: the `field:value` clause when the filter is present and
non-empty, nothing otherwise. -/
def presentTerm (clause : String) (v : Option String) : List String :=
  match v with
  | some s => if s = "" then [] else [clause ++ s]
  | none => []

/-- Conjunction of search terms: the terms joined by `" AND "`, with no
dangling connective. -/
def joinAnd : List String → String
  | [] => ""
  | [t] => t
  | t :: ts => t ++ (" AND " ++ joinAnd ts)

/-- The `field:value` terms of the present, non-empty company filters, in the
fixed field order. -/
def companyFilterTerms (p : SearchCompaniesInput) : List String :=
  presentTerm "location:" p.location
    ++ presentTerm "category:" p.category
    ++ presentTerm "founded_on:>=" p.founded_after
    ++ presentTerm "founded_on:<=" p.founded_before
    ++ presentTerm "status:" p.status

/-- The company query as the spec describes it: the conjunction of exactly the
present, non-empty items — the free-text term (when present and non-empty) and
the filter clauses in the fixed field order — absent ones omitted entirely,
with no dangling connective. -/
def specCompanyQuery (p : SearchCompaniesInput) : String :=
  joinAnd ((if strTruthy p.query then [orEmpty p.query] else []) ++ companyFilterTerms p)

/-- The `field:value` terms of the present, non-empty people filters, in the
fixed field order. -/
def peopleFilterTerms (p : SearchPeopleInput) : List String :=
  presentTerm "featured_job_organization_name:" p.company
    ++ presentTerm "featured_job_title:" p.title

/-- The people query as the spec describes it: the conjunction of exactly the
present, non-empty items. -/
def specPeopleQuery (p : SearchPeopleInput) : String :=
  joinAnd ((if strTruthy p.query then [orEmpty p.query] else []) ++ peopleFilterTerms p)

/-- Rendering of the interpolated `${status}` where the status may be
`undefined`. -/
def statusToStr : Option Int → String
  | some n => toString n
  | none => "undefined"

/-- The input to `handleError` (lines 194-211): either an axios error (with
optional HTTP status, optional upstream body message, and the axios message),
some other JS `Error` value, or a thrown non-`Error` value. -/
inductive ErrInput where
  | axiosErr (status : Option Int) (respMessage : Option String) (message : String)
  | jsError (name : String) (message : String)
  | nonError
  deriving Repr, DecidableEq

/-- `handleError` from `crunchbase-api.ts` lines 194-211, verbatim: axios
errors are classified by status into four fixed-message `new Error` values;
other `Error` values are returned unchanged; non-`Error` throwables become
`new Error('Unknown error')`. -/
def handleError : ErrInput → JsErrorValue
  | .axiosErr status respMessage message =>
    let msg := jsOr respMessage message
    if status = some 401 then
      ⟨"Error", "Unauthorized: Invalid API key"⟩
    else if status = some 404 then
      ⟨"Error", "Not found: The requested resource does not exist"⟩
    else if status = some 429 then
      ⟨"Error", "Rate limit exceeded: Too many requests"⟩
    else
      ⟨"Error", "Crunchbase API error (" ++ statusToStr status ++ "): " ++ msg⟩
  | .jsError name message => ⟨name, message⟩
  | .nonError => ⟨"Error", "Unknown error"⟩

/-- One outbound HTTP request, by endpoint and parameters, as issued by the
adapter operations. -/
inductive HttpCall where
  | searchOrganizations (query : String) (limit : Int) (order : Option String)
  | getOrganization (uuid : String)
  | fundingRounds (uuid : String) (limit : Int) (order : String)
  | searchAcquisitions (query : String) (limit : Int) (order : String)
  | searchPeopleCall (query : String) (limit : Int) (order : String)
  deriving Repr, DecidableEq

/-- The remote API, abstracted: one response function per endpoint the adapter
uses. -/
structure Oracle where
  searchOrganizations : String → Int → Option String → ApiOutcome (CrunchbaseApiResponse (List Company))
  getOrganization : String → ApiOutcome Company
  fundingRounds : String → Int → String → ApiOutcome (CrunchbaseApiResponse (List FundingRound))
  searchAcquisitions : String → Int → String → ApiOutcome (CrunchbaseApiResponse (List Acquisition))
  searchPeopleEndpoint : String → Int → String → ApiOutcome (CrunchbaseApiResponse (List Person))

/-- `CrunchbaseAPI.searchCompanies` (lines 34-72): builds the composite query,
issues one organization search with `limit || 10` and order `rank DESC`, and
returns `response.data.data` verbatim; a failure goes through `handleError`. -/
def searchCompanies (o : Oracle) (p : SearchCompaniesInput) :
    Except JsErrorValue (List Company) × List HttpCall :=
  let q := buildCompanyQuery p
  let lim := orLimit p.limit
  match o.searchOrganizations q lim (some "rank DESC") with
  | .ok resp => (.ok resp.data, [.searchOrganizations q lim (some "rank DESC")])
  | .httpFail st rm m =>
    (.error (handleError (.axiosErr st rm m)), [.searchOrganizations q lim (some "rank DESC")])

/-- `CrunchbaseAPI.getCompanyDetails` (lines 77-100): search for the given
string with limit 1 (no order parameter); if `count === 0` throw
`Company not found: <input>`; otherwise fetch the entity by the first result's
uuid.  The `data[0]` access when `count ≠ 0` but the data array is empty is the
JS runtime `TypeError`, which `handleError` passes through unchanged. -/
def getCompanyDetails (o : Oracle) (nameOrId : String) :
    Except JsErrorValue Company × List HttpCall :=
  match o.searchOrganizations nameOrId 1 none with
  | .httpFail st rm m =>
    (.error (handleError (.axiosErr st rm m)), [.searchOrganizations nameOrId 1 none])
  | .ok resp =>
    if resp.count = 0 then
      (.error (handleError (.jsError "Error" ("Company not found: " ++ nameOrId))),
       [.searchOrganizations nameOrId 1 none])
    else
      match resp.data with
      | [] =>
        (.error (handleError (.jsError "TypeError"
            "Cannot read properties of undefined (reading 'uuid')")),
         [.searchOrganizations nameOrId 1 none])
      | c :: _ =>
        match o.getOrganization c.uuid with
        | .ok company =>
          (.ok company, [.searchOrganizations nameOrId 1 none, .getOrganization c.uuid])
        | .httpFail st rm m =>
          (.error (handleError (.axiosErr st rm m)),
           [.searchOrganizations nameOrId 1 none, .getOrganization c.uuid])

/-- `CrunchbaseAPI.getFundingRounds` (lines 105-123): resolve the company via
`getCompanyDetails`, then list its funding rounds with `limit || 10` and order
`announced_on DESC`.  An error thrown by the resolution step is already a JS
`Error`, so the outer `handleError` returns it unchanged. -/
def getFundingRounds (o : Oracle) (companyNameOrId : String) (limit : Option Int) :
    Except JsErrorValue (List FundingRound) × List HttpCall :=
  match getCompanyDetails o companyNameOrId with
  | (.error e, log) => (.error e, log)
  | (.ok c, log) =>
    let lim := orLimit limit
    match o.fundingRounds c.uuid lim "announced_on DESC" with
    | .ok resp => (.ok resp.data, log ++ [.fundingRounds c.uuid lim "announced_on DESC"])
    | .httpFail st rm m =>
      (.error (handleError (.axiosErr st rm m)),
       log ++ [.fundingRounds c.uuid lim "announced_on DESC"])

/-- `CrunchbaseAPI.getAcquisitions` (lines 128-158): if the company reference
is truthy, resolve it and (if the resolved uuid is truthy) build the
disjunctive acquirer/acquiree filter; otherwise search with the empty query;
in all cases the acquisitions search carries `limit || 10` and order
`announced_on DESC`. -/
def getAcquisitions (o : Oracle) (companyNameOrId : Option String) (limit : Option Int) :
    Except JsErrorValue (List Acquisition) × List HttpCall :=
  let lim := orLimit limit
  if strTruthy companyNameOrId then
    match getCompanyDetails o (orEmpty companyNameOrId) with
    | (.error e, log) => (.error e, log)
    | (.ok c, log) =>
      let query := if c.uuid = "" then "" else
        "acquirer_identifier.uuid:" ++ c.uuid ++ " OR acquiree_identifier.uuid:" ++ c.uuid
      match o.searchAcquisitions query lim "announced_on DESC" with
      | .ok resp => (.ok resp.data, log ++ [.searchAcquisitions query lim "announced_on DESC"])
      | .httpFail st rm m =>
        (.error (handleError (.axiosErr st rm m)),
         log ++ [.searchAcquisitions query lim "announced_on DESC"])
  else
    match o.searchAcquisitions "" lim "announced_on DESC" with
    | .ok resp => (.ok resp.data, [.searchAcquisitions "" lim "announced_on DESC"])
    | .httpFail st rm m =>
      (.error (handleError (.axiosErr st rm m)), [.searchAcquisitions "" lim "announced_on DESC"])

/-- `CrunchbaseAPI.searchPeople` (lines 163-189): builds the people query,
issues one people search with `limit || 10` and order `rank DESC`, and returns
the data verbatim. -/
def searchPeople (o : Oracle) (p : SearchPeopleInput) :
    Except JsErrorValue (List Person) × List HttpCall :=
  let q := buildPeopleQuery p
  let lim := orLimit p.limit
  match o.searchPeopleEndpoint q lim "rank DESC" with
  | .ok resp => (.ok resp.data, [.searchPeopleCall q lim "rank DESC"])
  | .httpFail st rm m =>
    (.error (handleError (.axiosErr st rm m)), [.searchPeopleCall q lim "rank DESC"])

/-! ### Request Router (`src/index.ts`) -/

/-- A JavaScript value as it can appear in a tool-call argument object; the
router only distinguishes strings, numbers, and everything else (its `typeof`
checks). -/
inductive JSValue where
  | str (s : String)
  | num (n : Int)
  | boolean (b : Bool)
  | nullv
  | objv
  deriving Repr, DecidableEq

/-- A tool-call argument object: an association of property names to values. -/
def ArgsObj := List (String × JSValue)

/-- Property lookup on an argument object (first binding wins, as in a JS
object literal read). -/
def lookupArg (a : ArgsObj) (k : String) : Option JSValue :=
  (a.find? (fun p => p.1 = k)).map (fun p => p.2)

/-- `typeof args.x === 'string' ? args.x : undefined`. -/
def coerceStr (v : Option JSValue) : Option String :=
  match v with
  | some (.str s) => some s
  | _ => none

/-- `typeof args.x === 'number' ? args.x : undefined`. -/
def coerceNum (v : Option JSValue) : Option Int :=
  match v with
  | some (.num n) => some n
  | _ => none

/-- The MCP protocol error codes the router uses. -/
inductive McpCode where
  | invalidParams
  | invalidRequest
  | internalError
  | methodNotFound
  deriving Repr, DecidableEq

/-- An `McpError` value: protocol error code plus message. -/
structure McpError where
  code : McpCode
  message : String
  deriving Repr, DecidableEq

/-- An exception as it flows inside a router handler: either an `McpError` or
an ordinary JS `Error` (from the adapter or the JS runtime). -/
inductive Thrown where
  | mcp (e : McpError)
  | js (e : JsErrorValue)
  deriving Repr, DecidableEq

/-- The message the tool-call catch block renders
(`error instanceof Error ? error.message : 'Unknown error'`); both `McpError`
and plain errors are `Error` instances. -/
def thrownMessage : Thrown → String
  | .mcp e => e.message
  | .js e => e.message

/-- The text body of a content block.  Successful results are
`JSON.stringify(value, null, 2)`; serialization is kept abstract (the payload
records which value is serialized), error texts are literal strings. -/
inductive Payload where
  | companiesJson (cs : List Company)
  | companyJson (c : Company)
  | fundingRoundsJson (fs : List FundingRound)
  | acquisitionsJson (acqs : List Acquisition)
  | peopleJson (ps : List Person)
  | message (s : String)
  deriving Repr, DecidableEq

/-- The value a tool-call handler returns to the protocol host: one text
content block, and the `isError` side-channel flag (absent on success, which
is falsy, so modelled as `false`). -/
structure ToolResult where
  content : Payload
  isError : Bool
  deriving Repr, DecidableEq

/-- The `try` body of the `CallToolRequestSchema` handler (lines 519-628 of
`index.ts`): dispatch on tool name, validate/coerce arguments, call the
adapter, serialize.  Thrown values land in `Except.error`; the issued HTTP
calls are logged. -/
def toolCallInner (o : Oracle) (name : String) (args : Option ArgsObj) :
    Except Thrown Payload × List HttpCall :=
  if name = "search_companies" then
    match args with
    | none => (.error (.mcp ⟨.invalidParams, "Invalid parameters"⟩), [])
    | some a =>
      let p : SearchCompaniesInput :=
        { query := coerceStr (lookupArg a "query")
          location := coerceStr (lookupArg a "location")
          category := coerceStr (lookupArg a "category")
          founded_after := coerceStr (lookupArg a "founded_after")
          founded_before := coerceStr (lookupArg a "founded_before")
          status := coerceStr (lookupArg a "status")
          limit := coerceNum (lookupArg a "limit") }
      match searchCompanies o p with
      | (.ok cs, log) => (.ok (.companiesJson cs), log)
      | (.error e, log) => (.error (.js e), log)
  else if name = "get_company_details" then
    match args with
    | none => (.error (.mcp ⟨.invalidParams, "Missing or invalid name_or_id parameter"⟩), [])
    | some a =>
      match coerceStr (lookupArg a "name_or_id") with
      | none => (.error (.mcp ⟨.invalidParams, "Missing or invalid name_or_id parameter"⟩), [])
      | some s =>
        match getCompanyDetails o s with
        | (.ok c, log) => (.ok (.companyJson c), log)
        | (.error e, log) => (.error (.js e), log)
  else if name = "get_funding_rounds" then
    match args with
    | none => (.error (.mcp ⟨.invalidParams, "Missing or invalid company_name_or_id parameter"⟩), [])
    | some a =>
      match coerceStr (lookupArg a "company_name_or_id") with
      | none =>
        (.error (.mcp ⟨.invalidParams, "Missing or invalid company_name_or_id parameter"⟩), [])
      | some s =>
        match getFundingRounds o s (coerceNum (lookupArg a "limit")) with
        | (.ok fs, log) => (.ok (.fundingRoundsJson fs), log)
        | (.error e, log) => (.error (.js e), log)
  else if name = "get_acquisitions" then
    match args with
    | none => (.error (.mcp ⟨.invalidParams, "Invalid parameters"⟩), [])
    | some a =>
      match getAcquisitions o (coerceStr (lookupArg a "company_name_or_id"))
          (coerceNum (lookupArg a "limit")) with
      | (.ok acqs, log) => (.ok (.acquisitionsJson acqs), log)
      | (.error e, log) => (.error (.js e), log)
  else if name = "search_people" then
    match args with
    | none => (.error (.mcp ⟨.invalidParams, "Invalid parameters"⟩), [])
    | some a =>
      let p : SearchPeopleInput :=
        { query := coerceStr (lookupArg a "query")
          company := coerceStr (lookupArg a "company")
          title := coerceStr (lookupArg a "title")
          limit := coerceNum (lookupArg a "limit") }
      match searchPeople o p with
      | (.ok ps, log) => (.ok (.peopleJson ps), log)
      | (.error e, log) => (.error (.js e), log)
  else
    (.error (.mcp ⟨.methodNotFound, "Unknown tool: " ++ name⟩), [])

/-- The whole `CallToolRequestSchema` handler: the catch block (lines 629-640)
turns every thrown value into a normal result whose text is the error message
and whose `isError` flag is set; a tool call therefore never surfaces a
transport-level fault. -/
def handleToolCall (o : Oracle) (name : String) (args : Option ArgsObj) :
    ToolResult × List HttpCall :=
  match toolCallInner o name args with
  | (.ok payload, log) => ({ content := payload, isError := false }, log)
  | (.error e, log) => ({ content := .message (thrownMessage e), isError := true }, log)

/-! ### Resource handlers -/

/-- Drop a literal leading segment of a character list, or fail. -/
def stripLead? : List Char → List Char → Option (List Char)
  | [], s => some s
  | _ :: _, [] => none
  | a :: p, b :: s => if a = b then stripLead? p s else none

/-- Drop a literal trailing segment of a character list, or fail. -/
def stripTail? (t s : List Char) : Option (List Char) :=
  (stripLead? t.reverse s.reverse).map List.reverse

/-- Does a character list form one URI path segment, i.e. match `[^/]+`? -/
def isSegment (cs : List Char) : Bool :=
  !cs.isEmpty && !cs.contains '/'

/-- The regex `^crunchbase:\/\/companies\/([^/]+)$` (line 335): the captured
`{name}` segment, when the URI matches. -/
def matchCompanies (uri : String) : Option String :=
  match stripLead? "crunchbase://companies/".data uri.data with
  | some rest => if isSegment rest then some (String.mk rest) else none
  | none => none

/-- The regex `^crunchbase:\/\/companies\/([^/]+)\/funding$` (line 351). -/
def matchFunding (uri : String) : Option String :=
  match stripLead? "crunchbase://companies/".data uri.data with
  | some rest =>
    match stripTail? "/funding".data rest with
    | some seg => if isSegment seg then some (String.mk seg) else none
    | none => none
  | none => none

/-- The regex `^crunchbase:\/\/companies\/([^/]+)\/acquisitions$` (line 367). -/
def matchAcquisitions (uri : String) : Option String :=
  match stripLead? "crunchbase://companies/".data uri.data with
  | some rest =>
    match stripTail? "/acquisitions".data rest with
    | some seg => if isSegment seg then some (String.mk seg) else none
    | none => none
  | none => none

/-- Value of a hexadecimal digit, or `none`. -/
def hexVal? (c : Char) : Option Nat :=
  if '0' ≤ c ∧ c ≤ '9' then some (c.toNat - '0'.toNat)
  else if 'a' ≤ c ∧ c ≤ 'f' then some (c.toNat - 'a'.toNat + 10)
  else if 'A' ≤ c ∧ c ≤ 'F' then some (c.toNat - 'A'.toNat + 10)
  else none

/-- Percent-decoding of a character list: a `%` must be followed by two hex
digits, otherwise decoding fails (the model covers the percent-syntax failures
of `decodeURIComponent`; multi-byte UTF-8 recombination is not modelled). -/
def percentDecode : List Char → Option (List Char)
  | [] => some []
  | '%' :: c1 :: c2 :: rest =>
    match hexVal? c1, hexVal? c2 with
    | some h, some l => (percentDecode rest).map (fun cs => Char.ofNat (16 * h + l) :: cs)
    | _, _ => none
  | '%' :: _ :: [] => none
  | '%' :: [] => none
  | c :: rest =>
    if c = '%' then none
    else (percentDecode rest).map (fun cs => c :: cs)

/-- `decodeURIComponent`: throws `URIError: URI malformed` on a malformed
percent-encoding. -/
def decodeURIComponent (s : String) : Except JsErrorValue String :=
  match percentDecode s.data with
  | some cs => .ok (String.mk cs)
  | none => .error ⟨"URIError", "URI malformed"⟩

/-- One entry of a resource-read result's `contents` array. -/
structure ResourceContent where
  uri : String
  mimeType : String
  text : Payload
  deriving Repr, DecidableEq

/-- The `try` body of the `ReadResourceRequestSchema` handler (lines 316-385):
the trending literal, then the three company templates in order, else throw
`McpError(InvalidRequest, Invalid URI: <uri>)`. -/
def readResourceInner (o : Oracle) (uri : String) :
    Except Thrown (List ResourceContent) × List HttpCall :=
  if uri = "crunchbase://trending/companies" then
    match searchCompanies o { limit := some 10 } with
    | (.ok cs, log) => (.ok [⟨uri, "application/json", .companiesJson cs⟩], log)
    | (.error e, log) => (.error (.js e), log)
  else
    match matchCompanies uri with
    | some seg =>
      match decodeURIComponent seg with
      | .error e => (.error (.js e), [])
      | .ok name =>
        match getCompanyDetails o name with
        | (.ok c, log) => (.ok [⟨uri, "application/json", .companyJson c⟩], log)
        | (.error e, log) => (.error (.js e), log)
    | none =>
      match matchFunding uri with
      | some seg =>
        match decodeURIComponent seg with
        | .error e => (.error (.js e), [])
        | .ok name =>
          match getFundingRounds o name none with
          | (.ok fs, log) => (.ok [⟨uri, "application/json", .fundingRoundsJson fs⟩], log)
          | (.error e, log) => (.error (.js e), log)
      | none =>
        match matchAcquisitions uri with
        | some seg =>
          match decodeURIComponent seg with
          | .error e => (.error (.js e), [])
          | .ok name =>
            match getAcquisitions o (some name) none with
            | (.ok acqs, log) => (.ok [⟨uri, "application/json", .acquisitionsJson acqs⟩], log)
            | (.error e, log) => (.error (.js e), log)
        | none => (.error (.mcp ⟨.invalidRequest, "Invalid URI: " ++ uri⟩), [])

/-- The whole `ReadResourceRequestSchema` handler: its catch block (lines
386-395) rethrows an `McpError` unchanged and wraps any other error into
`McpError(InternalError, <message>)`.  Failures therefore always surface as
protocol-level faults (`Except.error`), never as in-band content. -/
def handleReadResource (o : Oracle) (uri : String) :
    Except McpError (List ResourceContent) × List HttpCall :=
  match readResourceInner o uri with
  | (.ok r, log) => (.ok r, log)
  | (.error (.mcp e), log) => (.error e, log)
  | (.error (.js e), log) => (.error ⟨.internalError, e.message⟩, log)

/-! ### Concrete oracles for witnesses -/

/-- An empty successful upstream: every search returns zero results. -/
def emptyOracle : Oracle where
  searchOrganizations := fun _ _ _ => .ok ⟨[], 0, 0⟩
  getOrganization := fun _ => .httpFail (some 404) none "Request failed with status code 404"
  fundingRounds := fun _ _ _ => .ok ⟨[], 0, 0⟩
  searchAcquisitions := fun _ _ _ => .ok ⟨[], 0, 0⟩
  searchPeopleEndpoint := fun _ _ _ => .ok ⟨[], 0, 0⟩

/-- An upstream that rejects every call with HTTP 401. -/
def failOracle : Oracle where
  searchOrganizations := fun _ _ _ => .httpFail (some 401) none "Request failed with status code 401"
  getOrganization := fun _ => .httpFail (some 401) none "Request failed with status code 401"
  fundingRounds := fun _ _ _ => .httpFail (some 401) none "Request failed with status code 401"
  searchAcquisitions := fun _ _ _ => .httpFail (some 401) none "Request failed with status code 401"
  searchPeopleEndpoint := fun _ _ _ => .httpFail (some 401) none "Request failed with status code 401"

/-- A company record used by witnesses. -/
def acmeCo : Company :=
  { uuid := "uuid-acme", name := "Acme", short_description := "d", website_url := "w" }

/-- An upstream on which company resolution succeeds with `acmeCo`. -/
def acmeOracle : Oracle where
  searchOrganizations := fun _ _ _ => .ok ⟨[acmeCo], 1, 1⟩
  getOrganization := fun _ => .ok acmeCo
  fundingRounds := fun _ _ _ => .ok ⟨[], 0, 0⟩
  searchAcquisitions := fun _ _ _ => .ok ⟨[], 0, 0⟩
  searchPeopleEndpoint := fun _ _ _ => .ok ⟨[], 0, 0⟩

/-- An upstream on which the resolution search succeeds but the entity fetch
is rejected with HTTP 404. -/
def orgFailOracle : Oracle where
  searchOrganizations := fun _ _ _ => .ok ⟨[acmeCo], 1, 1⟩
  getOrganization := fun _ => .httpFail (some 404) none "Request failed with status code 404"
  fundingRounds := fun _ _ _ => .ok ⟨[], 0, 0⟩
  searchAcquisitions := fun _ _ _ => .ok ⟨[], 0, 0⟩
  searchPeopleEndpoint := fun _ _ _ => .ok ⟨[], 0, 0⟩

/-- An upstream on which company resolution succeeds but the downstream
funding-rounds and acquisitions calls are rejected with HTTP 429. -/
def downstreamFailOracle : Oracle where
  searchOrganizations := fun _ _ _ => .ok ⟨[acmeCo], 1, 1⟩
  getOrganization := fun _ => .ok acmeCo
  fundingRounds := fun _ _ _ => .httpFail (some 429) none "Request failed with status code 429"
  searchAcquisitions := fun _ _ _ => .httpFail (some 429) none "Request failed with status code 429"
  searchPeopleEndpoint := fun _ _ _ => .httpFail (some 429) none "Request failed with status code 429"

/-! ### Helper lemmas -/

/-- The concatenation of `" AND "`-prefixed clauses, as the code's `query +=`
steps produce them. -/
def dangCat : List String → String
  | [] => ""
  | t :: ts => (" AND " ++ t) ++ dangCat ts

theorem dangCat_append (xs ys : List String) :
    dangCat (xs ++ ys) = dangCat xs ++ dangCat ys := by
  induction xs with
  | nil => simp [dangCat]
  | cons t xs ih => simp [dangCat, ih, String.append_assoc]

/-- Each `query +=` step appends exactly the dangling-`AND` clause of a
present, non-empty filter. -/
theorem appendFilter_dang (q clause : String) (v : Option String) :
    appendFilter q clause v = q ++ dangCat (presentTerm clause v) := by
  cases v with
  | none => simp [appendFilter, presentTerm, dangCat]
  | some s =>
    by_cases h : s = "" <;>
      simp [appendFilter, presentTerm, dangCat, h, String.append_assoc]

/-- A non-empty conjunction is its head followed by the dangling-`AND`
concatenation of its tail. -/
theorem joinAnd_cons (t : String) (ts : List String) :
    joinAnd (t :: ts) = t ++ dangCat ts := by
  induction ts generalizing t with
  | nil => simp [joinAnd, dangCat]
  | cons t' ts ih => simp [joinAnd, dangCat, ih, String.append_assoc]

/-- The built company query is the free-text term (or `""`) followed by the
dangling-`AND` clauses of the present, non-empty filters. -/
theorem buildCompanyQuery_dang (p : SearchCompaniesInput) :
    buildCompanyQuery p = orEmpty p.query ++ dangCat (companyFilterTerms p) := by
  simp [buildCompanyQuery, companyFilterTerms, appendFilter_dang, dangCat_append,
    String.append_assoc]

/-- The built people query is the free-text term (or `""`) followed by the
dangling-`AND` clauses of the present, non-empty filters. -/
theorem buildPeopleQuery_dang (p : SearchPeopleInput) :
    buildPeopleQuery p = orEmpty p.query ++ dangCat (peopleFilterTerms p) := by
  simp [buildPeopleQuery, peopleFilterTerms, appendFilter_dang, dangCat_append,
    String.append_assoc]

/-- A falsy optional string defaults to the empty string. -/
theorem orEmpty_of_falsy (v : Option String) (h : strTruthy v = false) :
    orEmpty v = "" := by
  cases v with
  | none => rfl
  | some s => simpa [strTruthy, orEmpty] using h

/-- `searchCompanies` issues exactly one organization search, with the built
query, the defaulted limit and order `rank DESC`. -/
theorem searchCompanies_log (o : Oracle) (p : SearchCompaniesInput) :
    (searchCompanies o p).2
      = [HttpCall.searchOrganizations (buildCompanyQuery p) (orLimit p.limit) (some "rank DESC")] := by
  rcases h : o.searchOrganizations (buildCompanyQuery p) (orLimit p.limit) (some "rank DESC")
    with v | ⟨st, rm, m⟩ <;> simp [searchCompanies, h]

/-- `searchPeople` issues exactly one people search, with the built query, the
defaulted limit and order `rank DESC`. -/
theorem searchPeople_log (o : Oracle) (p : SearchPeopleInput) :
    (searchPeople o p).2
      = [HttpCall.searchPeopleCall (buildPeopleQuery p) (orLimit p.limit) "rank DESC"] := by
  rcases h : o.searchPeopleEndpoint (buildPeopleQuery p) (orLimit p.limit) "rank DESC"
    with v | ⟨st, rm, m⟩ <;> simp [searchPeople, h]

/-- After a successful resolution, `getFundingRounds` issues the funding-rounds
call with the resolved uuid, the defaulted limit and order `announced_on DESC`. -/
theorem getFundingRounds_log (o : Oracle) (s : String) (l : Option Int)
    (c : Company) (rlog : List HttpCall) (h : getCompanyDetails o s = (.ok c, rlog)) :
    (getFundingRounds o s l).2
      = rlog ++ [HttpCall.fundingRounds c.uuid (orLimit l) "announced_on DESC"] := by
  rcases h2 : o.fundingRounds c.uuid (orLimit l) "announced_on DESC"
    with v | ⟨st, rm, m⟩ <;> simp [getFundingRounds, h, h2]

/-- Without a company reference, `getAcquisitions` issues one unfiltered
acquisitions search. -/
theorem getAcquisitions_none_log (o : Oracle) (l : Option Int) :
    (getAcquisitions o none l).2
      = [HttpCall.searchAcquisitions "" (orLimit l) "announced_on DESC"] := by
  rcases h : o.searchAcquisitions "" (orLimit l) "announced_on DESC"
    with v | ⟨st, rm, m⟩ <;> simp [getAcquisitions, strTruthy, h]

/-- With a non-empty company reference that resolves to a company with a
non-empty uuid, `getAcquisitions` resolves first and then issues the
disjunctive acquirer/acquiree search. -/
theorem getAcquisitions_some_log (o : Oracle) (s : String) (l : Option Int)
    (c : Company) (rlog : List HttpCall)
    (hs : s ≠ "") (h : getCompanyDetails o s = (.ok c, rlog)) (hu : c.uuid ≠ "") :
    (getAcquisitions o (some s) l).2
      = rlog ++ [HttpCall.searchAcquisitions
          ("acquirer_identifier.uuid:" ++ c.uuid ++ " OR acquiree_identifier.uuid:" ++ c.uuid)
          (orLimit l) "announced_on DESC"] := by
  rcases h2 : o.searchAcquisitions
      ("acquirer_identifier.uuid:" ++ c.uuid ++ " OR acquiree_identifier.uuid:" ++ c.uuid)
      (orLimit l) "announced_on DESC"
    with v | ⟨st, rm, m⟩ <;> simp [getAcquisitions, strTruthy, orEmpty, hs, hu, h, h2]

/-! ### Claim theorems -/

/-- Counterexample to claim C1: when the free-text query is absent, the code
does not omit the connective of the first present filter — the emitted query
keeps a dangling leading `" AND "`.  At `{location:"San Francisco"}` the code
builds (and sends upstream) `" AND location:San Francisco"`, while the spec's
conjunction of exactly the present, non-empty filters is
`"location:San Francisco"`. -/
theorem query_conjunction_counterexample :
    buildCompanyQuery { location := some "San Francisco" }
      = " AND location:San Francisco" ∧
    specCompanyQuery { location := some "San Francisco" } = "location:San Francisco" ∧
    buildCompanyQuery { location := some "San Francisco" }
      ≠ specCompanyQuery { location := some "San Francisco" } ∧
    (searchCompanies emptyOracle { location := some "San Francisco" }).2
      = [HttpCall.searchOrganizations " AND location:San Francisco" 10 (some "rank DESC")] :=
  ⟨rfl, rfl, by decide, rfl⟩

/-- Claim C1 as amended: when the free-text query is present and non-empty,
the emitted query AND-s exactly the present, non-empty filters as
`field:value` clauses onto the free-text term in the fixed field order,
omitting absent and empty ones entirely; when the free-text query is absent or
empty, the emitted query is instead the same conjunction with a dangling
leading `" AND "` (or empty when no filter is present).  The scenario
`search_companies({query:"AI", location:"San Francisco", limit:5})` emits
exactly `"AI AND location:San Francisco"` with limit 5 and order `rank DESC`. -/
theorem query_conjunction_amended :
    (∀ p : SearchCompaniesInput, strTruthy p.query = true →
      buildCompanyQuery p = specCompanyQuery p) ∧
    (∀ p : SearchCompaniesInput, strTruthy p.query = false →
      (companyFilterTerms p = [] ∧ buildCompanyQuery p = "" ∧ specCompanyQuery p = "") ∨
      buildCompanyQuery p = " AND " ++ specCompanyQuery p) ∧
    (∀ p : SearchPeopleInput, strTruthy p.query = true →
      buildPeopleQuery p = specPeopleQuery p) ∧
    (∀ p : SearchPeopleInput, strTruthy p.query = false →
      (peopleFilterTerms p = [] ∧ buildPeopleQuery p = "" ∧ specPeopleQuery p = "") ∨
      buildPeopleQuery p = " AND " ++ specPeopleQuery p) ∧
    (∀ o : Oracle,
      (searchCompanies o
        { query := some "AI", location := some "San Francisco", limit := some 5 }).2
        = [HttpCall.searchOrganizations "AI AND location:San Francisco" 5 (some "rank DESC")]) := by
  refine ⟨?_, ?_, ?_, ?_, ?_⟩
  · intro p h
    simp [specCompanyQuery, h, joinAnd_cons, buildCompanyQuery_dang]
  · intro p h
    rw [buildCompanyQuery_dang, orEmpty_of_falsy _ h]
    rcases hts : companyFilterTerms p with _ | ⟨t, ts⟩
    · exact Or.inl ⟨rfl, rfl, by simp [specCompanyQuery, h, hts, joinAnd]⟩
    · refine Or.inr ?_
      simp [specCompanyQuery, h, hts, joinAnd_cons, dangCat, String.append_assoc]
  · intro p h
    simp [specPeopleQuery, h, joinAnd_cons, buildPeopleQuery_dang]
  · intro p h
    rw [buildPeopleQuery_dang, orEmpty_of_falsy _ h]
    rcases hts : peopleFilterTerms p with _ | ⟨t, ts⟩
    · exact Or.inl ⟨rfl, rfl, by simp [specPeopleQuery, h, hts, joinAnd]⟩
    · refine Or.inr ?_
      simp [specPeopleQuery, h, hts, joinAnd_cons, dangCat, String.append_assoc]
  · intro o
    rw [searchCompanies_log]
    rfl

/-- Witness for the amended C1: a present free-text query agrees with the spec
conjunction; an absent one yields the dangling-`AND` variant. -/
theorem query_conjunction_amended_witness :
    buildCompanyQuery { query := some "AI", location := some "San Francisco" }
      = specCompanyQuery { query := some "AI", location := some "San Francisco" } ∧
    buildCompanyQuery { location := some "San Francisco" }
      = " AND " ++ specCompanyQuery { location := some "San Francisco" } ∧
    buildPeopleQuery { query := some "Smith", title := some "CEO" }
      = specPeopleQuery { query := some "Smith", title := some "CEO" } ∧
    buildPeopleQuery { title := some "CEO" }
      = " AND " ++ specPeopleQuery { title := some "CEO" } ∧
    (searchCompanies emptyOracle
      { query := some "AI", location := some "San Francisco", limit := some 5 }).2
      = [HttpCall.searchOrganizations "AI AND location:San Francisco" 5 (some "rank DESC")] := by
  refine ⟨query_conjunction_amended.1
      { query := some "AI", location := some "San Francisco" } (by decide),
    ?_,
    query_conjunction_amended.2.2.1 { query := some "Smith", title := some "CEO" } (by decide),
    ?_,
    query_conjunction_amended.2.2.2.2 emptyOracle⟩
  · rcases query_conjunction_amended.2.1 { location := some "San Francisco" } (by decide)
      with ⟨hnil, _, _⟩ | h
    · exact absurd hnil (by decide)
    · exact h
  · rcases query_conjunction_amended.2.2.2.1 { title := some "CEO" } (by decide)
      with ⟨hnil, _, _⟩ | h
    · exact absurd hnil (by decide)
    · exact h

/-- Claim C3: whenever the resolution search issued by `getCompanyDetails`
returns zero results (`count === 0`), the operation fails with the error
`Company not found: <input>` naming the exact input string, after having
issued only the single resolution search; in particular it never returns a
company value. -/
theorem company_details_zero_results_not_found (o : Oracle) (nameOrId : String)
    (resp : CrunchbaseApiResponse (List Company))
    (hsearch : o.searchOrganizations nameOrId 1 none = .ok resp)
    (hcount : resp.count = 0) :
    getCompanyDetails o nameOrId
      = (.error ⟨"Error", "Company not found: " ++ nameOrId⟩,
         [HttpCall.searchOrganizations nameOrId 1 none]) := by
  simp [getCompanyDetails, hsearch, hcount, handleError]

/-- Witness for C3: on an upstream returning zero hits, looking up `"OpenAI"`
fails with exactly `Company not found: OpenAI`. -/
theorem company_details_zero_results_not_found_witness :
    getCompanyDetails emptyOracle "OpenAI"
      = (.error ⟨"Error", "Company not found: OpenAI"⟩,
         [HttpCall.searchOrganizations "OpenAI" 1 none]) :=
  company_details_zero_results_not_found emptyOracle "OpenAI" ⟨[], 0, 0⟩ rfl rfl

/-- Claim C4: `handleError` maps HTTP status 401 to the authentication-failure
error, 404 to the not-found error, 429 to the rate-limit error, and any other
status to the generic upstream error carrying the status code and the upstream
message body (`response.data.message || error.message`); and every operation
propagates an upstream HTTP failure through this same mapping. -/
theorem http_status_error_mapping :
    (∀ (rm : Option String) (m : String),
      handleError (.axiosErr (some 401) rm m) = ⟨"Error", "Unauthorized: Invalid API key"⟩) ∧
    (∀ (rm : Option String) (m : String),
      handleError (.axiosErr (some 404) rm m)
        = ⟨"Error", "Not found: The requested resource does not exist"⟩) ∧
    (∀ (rm : Option String) (m : String),
      handleError (.axiosErr (some 429) rm m)
        = ⟨"Error", "Rate limit exceeded: Too many requests"⟩) ∧
    (∀ (n : Int) (rm : Option String) (m : String), n ≠ 401 → n ≠ 404 → n ≠ 429 →
      handleError (.axiosErr (some n) rm m)
        = ⟨"Error", "Crunchbase API error (" ++ toString n ++ "): " ++ jsOr rm m⟩) ∧
    (∀ (o : Oracle) (p : SearchCompaniesInput) (st : Option Int) (rm : Option String) (m : String),
      o.searchOrganizations (buildCompanyQuery p) (orLimit p.limit) (some "rank DESC")
          = .httpFail st rm m →
      (searchCompanies o p).1 = .error (handleError (.axiosErr st rm m))) ∧
    (∀ (o : Oracle) (s : String) (st : Option Int) (rm : Option String) (m : String),
      o.searchOrganizations s 1 none = .httpFail st rm m →
      (getCompanyDetails o s).1 = .error (handleError (.axiosErr st rm m))) ∧
    (∀ (o : Oracle) (l : Option Int) (st : Option Int) (rm : Option String) (m : String),
      o.searchAcquisitions "" (orLimit l) "announced_on DESC" = .httpFail st rm m →
      (getAcquisitions o none l).1 = .error (handleError (.axiosErr st rm m))) ∧
    (∀ (o : Oracle) (p : SearchPeopleInput) (st : Option Int) (rm : Option String) (m : String),
      o.searchPeopleEndpoint (buildPeopleQuery p) (orLimit p.limit) "rank DESC"
          = .httpFail st rm m →
      (searchPeople o p).1 = .error (handleError (.axiosErr st rm m))) ∧
    (∀ (o : Oracle) (s : String) (resp : CrunchbaseApiResponse (List Company)) (c : Company)
        (rest : List Company) (st : Option Int) (rm : Option String) (m : String),
      o.searchOrganizations s 1 none = .ok resp → resp.count ≠ 0 → resp.data = c :: rest →
      o.getOrganization c.uuid = .httpFail st rm m →
      (getCompanyDetails o s).1 = .error (handleError (.axiosErr st rm m))) ∧
    (∀ (o : Oracle) (s : String) (l : Option Int) (c : Company) (rlog : List HttpCall)
        (st : Option Int) (rm : Option String) (m : String),
      getCompanyDetails o s = (.ok c, rlog) →
      o.fundingRounds c.uuid (orLimit l) "announced_on DESC" = .httpFail st rm m →
      (getFundingRounds o s l).1 = .error (handleError (.axiosErr st rm m))) ∧
    (∀ (o : Oracle) (s : String) (l : Option Int) (c : Company) (rlog : List HttpCall)
        (st : Option Int) (rm : Option String) (m : String),
      s ≠ "" → getCompanyDetails o s = (.ok c, rlog) → c.uuid ≠ "" →
      o.searchAcquisitions
          ("acquirer_identifier.uuid:" ++ c.uuid ++ " OR acquiree_identifier.uuid:" ++ c.uuid)
          (orLimit l) "announced_on DESC" = .httpFail st rm m →
      (getAcquisitions o (some s) l).1 = .error (handleError (.axiosErr st rm m))) := by
  refine ⟨fun rm m => rfl, fun rm m => rfl, fun rm m => rfl, ?_, ?_, ?_, ?_, ?_, ?_, ?_, ?_⟩
  · intro n rm m h1 h2 h3
    simp [handleError, statusToStr, h1, h2, h3]
  · intro o p st rm m h
    simp [searchCompanies, h]
  · intro o s st rm m h
    simp [getCompanyDetails, h]
  · intro o l st rm m h
    simp [getAcquisitions, strTruthy, h]
  · intro o p st rm m h
    simp [searchPeople, h]
  · intro o s resp c rest st rm m hsearch hcount hdata horg
    simp [getCompanyDetails, hsearch, hcount, hdata, horg]
  · intro o s l c rlog st rm m hres hfund
    simp [getFundingRounds, hres, hfund]
  · intro o s l c rlog st rm m hs hres hu hacq
    simp [getAcquisitions, strTruthy, orEmpty, hs, hres, hu, hacq]

/-- Witness for C4: under an upstream rejecting every call with HTTP 401 and a
generic status-500 input, the mapping produces the fixed messages. -/
theorem http_status_error_mapping_witness :
    handleError (.axiosErr (some 401) none "x") = ⟨"Error", "Unauthorized: Invalid API key"⟩ ∧
    handleError (.axiosErr (some 404) none "x")
      = ⟨"Error", "Not found: The requested resource does not exist"⟩ ∧
    handleError (.axiosErr (some 429) none "x")
      = ⟨"Error", "Rate limit exceeded: Too many requests"⟩ ∧
    handleError (.axiosErr (some 500) (some "boom") "x")
      = ⟨"Error", "Crunchbase API error (500): boom"⟩ ∧
    (searchCompanies failOracle {}).1 = .error ⟨"Error", "Unauthorized: Invalid API key"⟩ ∧
    (getCompanyDetails failOracle "OpenAI").1
      = .error ⟨"Error", "Unauthorized: Invalid API key"⟩ ∧
    (getAcquisitions failOracle none none).1
      = .error ⟨"Error", "Unauthorized: Invalid API key"⟩ ∧
    (searchPeople failOracle {}).1 = .error ⟨"Error", "Unauthorized: Invalid API key"⟩ ∧
    (getCompanyDetails orgFailOracle "Acme").1
      = .error ⟨"Error", "Not found: The requested resource does not exist"⟩ ∧
    (getFundingRounds downstreamFailOracle "Acme" none).1
      = .error ⟨"Error", "Rate limit exceeded: Too many requests"⟩ ∧
    (getAcquisitions downstreamFailOracle (some "Acme") none).1
      = .error ⟨"Error", "Rate limit exceeded: Too many requests"⟩ := by
  refine ⟨http_status_error_mapping.1 none "x",
    http_status_error_mapping.2.1 none "x",
    http_status_error_mapping.2.2.1 none "x",
    ?_,
    http_status_error_mapping.2.2.2.2.1 failOracle {} (some 401) none
      "Request failed with status code 401" rfl,
    http_status_error_mapping.2.2.2.2.2.1 failOracle "OpenAI" (some 401) none
      "Request failed with status code 401" rfl,
    http_status_error_mapping.2.2.2.2.2.2.1 failOracle none (some 401) none
      "Request failed with status code 401" rfl,
    http_status_error_mapping.2.2.2.2.2.2.2.1 failOracle {} (some 401) none
      "Request failed with status code 401" rfl,
    http_status_error_mapping.2.2.2.2.2.2.2.2.1 orgFailOracle "Acme" ⟨[acmeCo], 1, 1⟩
      acmeCo [] (some 404) none "Request failed with status code 404" rfl
      (by decide) rfl rfl,
    http_status_error_mapping.2.2.2.2.2.2.2.2.2.1 downstreamFailOracle "Acme" none
      acmeCo [HttpCall.searchOrganizations "Acme" 1 none, HttpCall.getOrganization "uuid-acme"]
      (some 429) none "Request failed with status code 429" rfl rfl,
    http_status_error_mapping.2.2.2.2.2.2.2.2.2.2 downstreamFailOracle "Acme" none
      acmeCo [HttpCall.searchOrganizations "Acme" 1 none, HttpCall.getOrganization "uuid-acme"]
      (some 429) none "Request failed with status code 429" (by decide) rfl
      (by decide) rfl⟩
  have h := http_status_error_mapping.2.2.2.1 500 (some "boom") "x"
    (by decide) (by decide) (by decide)
  simpa using h

/-- Claim C8: `getAcquisitions` without a company reference issues one
acquisitions search with the empty (unfiltered) query; with a (non-empty)
company reference it resolves the company first and then issues the search
whose query is the disjunction of acquirer-identifier and acquiree-identifier
equal to the resolved id; in both cases the request carries `limit || 10` and
order `announced_on DESC`. -/
theorem acquisitions_query_shape :
    (∀ (o : Oracle) (l : Option Int),
      (getAcquisitions o none l).2
        = [HttpCall.searchAcquisitions "" (orLimit l) "announced_on DESC"]) ∧
    (∀ (o : Oracle) (s : String) (l : Option Int) (c : Company) (rlog : List HttpCall),
      s ≠ "" → getCompanyDetails o s = (.ok c, rlog) → c.uuid ≠ "" →
      (getAcquisitions o (some s) l).2
        = rlog ++ [HttpCall.searchAcquisitions
            ("acquirer_identifier.uuid:" ++ c.uuid ++ " OR acquiree_identifier.uuid:" ++ c.uuid)
            (orLimit l) "announced_on DESC"]) :=
  ⟨getAcquisitions_none_log,
   fun o s l c rlog hs h hu => getAcquisitions_some_log o s l c rlog hs h hu⟩

/-- Witness for C8: on an upstream resolving `"Acme"` to `acmeCo`, the
acquisitions search carries the disjunctive filter over `uuid-acme`, after the
two resolution calls. -/
theorem acquisitions_query_shape_witness :
    (getAcquisitions acmeOracle none (some 5)).2
      = [HttpCall.searchAcquisitions "" 5 "announced_on DESC"] ∧
    (getAcquisitions acmeOracle (some "Acme") (some 5)).2
      = [HttpCall.searchOrganizations "Acme" 1 none, HttpCall.getOrganization "uuid-acme",
         HttpCall.searchAcquisitions
           "acquirer_identifier.uuid:uuid-acme OR acquiree_identifier.uuid:uuid-acme"
           5 "announced_on DESC"] := by
  constructor
  · exact acquisitions_query_shape.1 acmeOracle (some 5)
  · have h := acquisitions_query_shape.2 acmeOracle "Acme" (some 5) acmeCo
      [HttpCall.searchOrganizations "Acme" 1 none, HttpCall.getOrganization "uuid-acme"]
      (by decide) rfl (by decide)
    simpa using h

/-- Claim C9: in every operation taking a result-limit, a supplied limit of 0
is replaced by the default 10 in the upstream request (the `limit || 10`
default applies to every falsy limit, not only an absent one), so the emitted
limit is never 0. -/
theorem zero_limit_replaced_by_default :
    (∀ l : Option Int, orLimit l ≠ 0) ∧
    (orLimit (some 0) = 10 ∧ orLimit none = 10) ∧
    (∀ (o : Oracle) (p : SearchCompaniesInput), p.limit = some 0 →
      (searchCompanies o p).2
        = [HttpCall.searchOrganizations (buildCompanyQuery p) 10 (some "rank DESC")]) ∧
    (∀ (o : Oracle) (s : String) (c : Company) (rlog : List HttpCall),
      getCompanyDetails o s = (.ok c, rlog) →
      (getFundingRounds o s (some 0)).2
        = rlog ++ [HttpCall.fundingRounds c.uuid 10 "announced_on DESC"]) ∧
    (∀ o : Oracle,
      (getAcquisitions o none (some 0)).2
        = [HttpCall.searchAcquisitions "" 10 "announced_on DESC"]) ∧
    (∀ (o : Oracle) (p : SearchPeopleInput), p.limit = some 0 →
      (searchPeople o p).2
        = [HttpCall.searchPeopleCall (buildPeopleQuery p) 10 "rank DESC"]) := by
  refine ⟨?_, ⟨rfl, rfl⟩, ?_, ?_, ?_, ?_⟩
  · intro l
    rcases l with _ | n
    · decide
    · by_cases h : n = 0 <;> simp [orLimit, h]
  · intro o p hl
    rw [searchCompanies_log, hl]
    rfl
  · intro o s c rlog h
    rw [getFundingRounds_log o s (some 0) c rlog h]
    rfl
  · intro o
    rw [getAcquisitions_none_log]
    rfl
  · intro o p hl
    rw [searchPeople_log, hl]
    rfl

/-- Witness for C9: a limit of 0 supplied to each operation yields an upstream
request with limit 10. -/
theorem zero_limit_replaced_by_default_witness :
    orLimit (some 0) ≠ 0 ∧
    (searchCompanies emptyOracle { limit := some 0 }).2
      = [HttpCall.searchOrganizations "" 10 (some "rank DESC")] ∧
    (getFundingRounds acmeOracle "Acme" (some 0)).2
      = [HttpCall.searchOrganizations "Acme" 1 none, HttpCall.getOrganization "uuid-acme",
         HttpCall.fundingRounds "uuid-acme" 10 "announced_on DESC"] ∧
    (getAcquisitions emptyOracle none (some 0)).2
      = [HttpCall.searchAcquisitions "" 10 "announced_on DESC"] ∧
    (searchPeople emptyOracle { limit := some 0 }).2
      = [HttpCall.searchPeopleCall "" 10 "rank DESC"] := by
  refine ⟨zero_limit_replaced_by_default.1 (some 0),
    zero_limit_replaced_by_default.2.2.1 emptyOracle { limit := some 0 } rfl, ?_,
    zero_limit_replaced_by_default.2.2.2.2.1 emptyOracle,
    zero_limit_replaced_by_default.2.2.2.2.2 emptyOracle { limit := some 0 } rfl⟩
  have h := zero_limit_replaced_by_default.2.2.2.1 acmeOracle "Acme" acmeCo
    [HttpCall.searchOrganizations "Acme" 1 none, HttpCall.getOrganization "uuid-acme"] rfl
  simpa using h

/-- Counterexample to claim C2: the classified adapter errors are not
distinct, inspectable error values.  Every classified error is built with
`new Error(message)`, so a transport-classified failure whose message happens
to be `"Unauthorized: Invalid API key"` is literally the same error value as
an authentication failure (HTTP 401), and the 401- and 404-classified errors
share the same constructor name `"Error"` — no caller can branch on a kind. -/
theorem classified_errors_not_inspectable_counterexample :
    handleError (.jsError "Error" "Unauthorized: Invalid API key")
      = handleError (.axiosErr (some 401) none "connection reset") ∧
    (handleError (.axiosErr (some 401) none "x")).name
      = (handleError (.axiosErr (some 404) none "x")).name := by
  constructor <;> rfl

/-- Claim C2 as amended: every classified adapter error is a plain `Error`
value (constructor name `"Error"` in every axios-classified case), carrying
nothing but a message; callers can branch only on the message text, and for
the HTTP-status classes the fixed messages are pairwise distinct, with the
generic upstream class recognizable by its `"Crunchbase API error ("`
message head. -/
theorem classified_errors_distinct_only_by_message :
    (∀ (st : Option Int) (rm : Option String) (m : String),
      (handleError (.axiosErr st rm m)).name = "Error") ∧
    (∀ (rm rm' : Option String) (m m' : String),
      (handleError (.axiosErr (some 401) rm m)).message
          ≠ (handleError (.axiosErr (some 404) rm' m')).message ∧
      (handleError (.axiosErr (some 401) rm m)).message
          ≠ (handleError (.axiosErr (some 429) rm' m')).message ∧
      (handleError (.axiosErr (some 404) rm m)).message
          ≠ (handleError (.axiosErr (some 429) rm' m')).message) ∧
    (∀ (n : Int) (rm : Option String) (m : String), n ≠ 401 → n ≠ 404 → n ≠ 429 →
      ∃ rest, (handleError (.axiosErr (some n) rm m)).message
        = "Crunchbase API error (" ++ rest) := by
  refine ⟨?_, ?_, ?_⟩
  · intro st rm m
    simp only [handleError]
    split_ifs <;> rfl
  · intro rm rm' m m'
    refine ⟨?_, ?_, ?_⟩ <;> simp [handleError]
  · intro n rm m h1 h2 h3
    refine ⟨toString n ++ ("): " ++ jsOr rm m), ?_⟩
    simp [handleError, statusToStr, h1, h2, h3, String.append_assoc]

/-- Witness for the amended C2: concrete classified errors share the `"Error"`
constructor but differ in message, and a status-500 error carries the generic
message head. -/
theorem classified_errors_distinct_only_by_message_witness :
    (handleError (.axiosErr (some 401) none "x")).name = "Error" ∧
    (handleError (.axiosErr (some 401) none "x")).message
      ≠ (handleError (.axiosErr (some 404) none "x")).message ∧
    ∃ rest, (handleError (.axiosErr (some 500) none "x")).message
      = "Crunchbase API error (" ++ rest :=
  ⟨classified_errors_distinct_only_by_message.1 (some 401) none "x",
   (classified_errors_distinct_only_by_message.2.1 none none "x" "x").1,
   classified_errors_distinct_only_by_message.2.2 500 none "x"
     (by decide) (by decide) (by decide)⟩

/-- Claim C5: a tool call to `get_company_details` (resp. `get_funding_rounds`)
whose required argument `name_or_id` (resp. `company_name_or_id`) is absent or
not a string fails with the invalid-parameters `McpError` and an empty HTTP
call log — no adapter operation is invoked and no network call is issued. -/
theorem required_arg_validation_precedes_network :
    (∀ (o : Oracle) (args : Option ArgsObj),
      (args = none ∨ ∃ a, args = some a ∧ coerceStr (lookupArg a "name_or_id") = none) →
      toolCallInner o "get_company_details" args
        = (.error (.mcp ⟨.invalidParams, "Missing or invalid name_or_id parameter"⟩), [])) ∧
    (∀ (o : Oracle) (args : Option ArgsObj),
      (args = none ∨ ∃ a, args = some a ∧ coerceStr (lookupArg a "company_name_or_id") = none) →
      toolCallInner o "get_funding_rounds" args
        = (.error (.mcp ⟨.invalidParams, "Missing or invalid company_name_or_id parameter"⟩),
           [])) := by
  constructor
  · intro o args h
    rcases h with rfl | ⟨a, rfl, ha⟩
    · simp [toolCallInner]
    · simp [toolCallInner, ha]
  · intro o args h
    rcases h with rfl | ⟨a, rfl, ha⟩
    · simp [toolCallInner]
    · simp [toolCallInner, ha]

/-- Witness for C5: absent arguments and a numeric `name_or_id` /
`company_name_or_id` each fail with invalid-parameters and an empty call log. -/
theorem required_arg_validation_precedes_network_witness :
    toolCallInner emptyOracle "get_company_details" none
      = (.error (.mcp ⟨.invalidParams, "Missing or invalid name_or_id parameter"⟩), []) ∧
    toolCallInner emptyOracle "get_company_details" (some [("name_or_id", .num 7)])
      = (.error (.mcp ⟨.invalidParams, "Missing or invalid name_or_id parameter"⟩), []) ∧
    toolCallInner emptyOracle "get_funding_rounds" (some [("limit", .num 5)])
      = (.error (.mcp ⟨.invalidParams, "Missing or invalid company_name_or_id parameter"⟩),
         []) :=
  ⟨required_arg_validation_precedes_network.1 emptyOracle none (Or.inl rfl),
   required_arg_validation_precedes_network.1 emptyOracle (some [("name_or_id", .num 7)])
     (Or.inr ⟨[("name_or_id", .num 7)], rfl, rfl⟩),
   required_arg_validation_precedes_network.2 emptyOracle (some [("limit", .num 5)])
     (Or.inr ⟨[("limit", .num 5)], rfl, rfl⟩)⟩

/-- Claim C6: every failure thrown inside a tool call — adapter errors,
invalid-parameters errors, unknown-tool errors — is caught at the router
boundary and rendered as a normal result whose text is the error message and
whose `isError` flag is set; `handleToolCall` is a total function into
`ToolResult`, so the protocol call never surfaces the failure as a
transport-level fault. -/
theorem tool_failures_rendered_in_band (o : Oracle) (name : String)
    (args : Option ArgsObj) (e : Thrown) (log : List HttpCall)
    (h : toolCallInner o name args = (.error e, log)) :
    handleToolCall o name args
      = ({ content := .message (thrownMessage e), isError := true }, log) := by
  simp [handleToolCall, h]

/-- Witness for C6: an unknown tool name yields an in-band error result with
the flag set, as does an adapter authentication failure. -/
theorem tool_failures_rendered_in_band_witness :
    handleToolCall emptyOracle "bogus_tool" none
      = ({ content := .message "Unknown tool: bogus_tool", isError := true }, []) ∧
    handleToolCall failOracle "search_people" (some [])
      = ({ content := .message "Unauthorized: Invalid API key", isError := true },
         [HttpCall.searchPeopleCall "" 10 "rank DESC"]) :=
  ⟨tool_failures_rendered_in_band emptyOracle "bogus_tool" none
     (.mcp ⟨.methodNotFound, "Unknown tool: bogus_tool"⟩) [] rfl,
   tool_failures_rendered_in_band failOracle "search_people" (some [])
     (.js ⟨"Error", "Unauthorized: Invalid API key"⟩)
     [HttpCall.searchPeopleCall "" 10 "rank DESC"] rfl⟩

/-- Claim C7: resource-read failures propagate as classified protocol-level
faults, never as in-band text payloads: a URI matching neither the trending
literal nor any of the three company templates fails with the invalid-request
fault naming the offending URI (with no network call issued), any JS error
thrown during a matched read surfaces as an internal-error fault carrying its
message, and reading `scheme://badpath` faults with
`Invalid URI: scheme://badpath`. -/
theorem resource_failures_are_protocol_faults :
    (∀ (o : Oracle) (uri : String),
      uri ≠ "crunchbase://trending/companies" →
      matchCompanies uri = none → matchFunding uri = none → matchAcquisitions uri = none →
      handleReadResource o uri
        = (.error ⟨.invalidRequest, "Invalid URI: " ++ uri⟩, [])) ∧
    (∀ (o : Oracle) (uri : String) (e : JsErrorValue) (log : List HttpCall),
      readResourceInner o uri = (.error (.js e), log) →
      handleReadResource o uri = (.error ⟨.internalError, e.message⟩, log)) ∧
    (∀ o : Oracle,
      handleReadResource o "scheme://badpath"
        = (.error ⟨.invalidRequest, "Invalid URI: scheme://badpath"⟩, [])) := by
  refine ⟨?_, ?_, ?_⟩
  · intro o uri h1 h2 h3 h4
    simp [handleReadResource, readResourceInner, h1, h2, h3, h4]
  · intro o uri e log h
    simp [handleReadResource, h]
  · intro o
    rfl

/-- Witness for C7: the unmatched-URI fault at `scheme://badpath`, and the
internal-error fault when the trending read hits an upstream 401. -/
theorem resource_failures_are_protocol_faults_witness :
    handleReadResource emptyOracle "scheme://badpath"
      = (.error ⟨.invalidRequest, "Invalid URI: scheme://badpath"⟩, []) ∧
    handleReadResource failOracle "crunchbase://trending/companies"
      = (.error ⟨.internalError, "Unauthorized: Invalid API key"⟩,
         [HttpCall.searchOrganizations "" 10 (some "rank DESC")]) :=
  ⟨resource_failures_are_protocol_faults.1 emptyOracle "scheme://badpath"
     (by decide) rfl rfl rfl,
   resource_failures_are_protocol_faults.2.1 failOracle "crunchbase://trending/companies"
     ⟨"Error", "Unauthorized: Invalid API key"⟩
     [HttpCall.searchOrganizations "" 10 (some "rank DESC")] rfl⟩

/-- Claim C10: a resource read whose URI matches one of the three company
templates but whose `{name}` segment is a malformed percent-encoding fails
with the internal-error protocol fault (`decodeURIComponent` throws
`URI malformed`, which is not an `McpError`), not the invalid-request fault,
and the empty call log shows that no adapter operation is invoked. -/
theorem malformed_percent_name_internal_fault :
    (∀ (o : Oracle) (uri seg : String),
      uri ≠ "crunchbase://trending/companies" →
      matchCompanies uri = some seg →
      percentDecode seg.data = none →
      handleReadResource o uri = (.error ⟨.internalError, "URI malformed"⟩, [])) ∧
    (∀ (o : Oracle) (uri seg : String),
      uri ≠ "crunchbase://trending/companies" →
      matchCompanies uri = none →
      matchFunding uri = some seg →
      percentDecode seg.data = none →
      handleReadResource o uri = (.error ⟨.internalError, "URI malformed"⟩, [])) ∧
    (∀ (o : Oracle) (uri seg : String),
      uri ≠ "crunchbase://trending/companies" →
      matchCompanies uri = none → matchFunding uri = none →
      matchAcquisitions uri = some seg →
      percentDecode seg.data = none →
      handleReadResource o uri = (.error ⟨.internalError, "URI malformed"⟩, [])) := by
  refine ⟨?_, ?_, ?_⟩
  · intro o uri seg h1 h2 h3
    simp [handleReadResource, readResourceInner, decodeURIComponent, h1, h2, h3]
  · intro o uri seg h1 h2 h3 h4
    simp [handleReadResource, readResourceInner, decodeURIComponent, h1, h2, h3, h4]
  · intro o uri seg h1 h2 h3 h4 h5
    simp [handleReadResource, readResourceInner, decodeURIComponent, h1, h2, h3, h4, h5]

/-- Witness for C10: the malformed segment `%zz` under each of the three
company templates faults with internal-error and issues no HTTP call. -/
theorem malformed_percent_name_internal_fault_witness :
    handleReadResource emptyOracle "crunchbase://companies/%zz"
      = (.error ⟨.internalError, "URI malformed"⟩, []) ∧
    handleReadResource emptyOracle "crunchbase://companies/%zz/funding"
      = (.error ⟨.internalError, "URI malformed"⟩, []) ∧
    handleReadResource emptyOracle "crunchbase://companies/%zz/acquisitions"
      = (.error ⟨.internalError, "URI malformed"⟩, []) :=
  ⟨malformed_percent_name_internal_fault.1 emptyOracle
     "crunchbase://companies/%zz" "%zz" (by decide) rfl rfl,
   malformed_percent_name_internal_fault.2.1 emptyOracle
     "crunchbase://companies/%zz/funding" "%zz" (by decide) rfl rfl rfl,
   malformed_percent_name_internal_fault.2.2 emptyOracle
     "crunchbase://companies/%zz/acquisitions" "%zz" (by decide) rfl rfl rfl rfl⟩

end Crunchbase
